import Mathlib

set_option linter.unusedVariables false

/-!
Verification of the session/operation orchestration layer of the
Mani Ai Creative Suite front-end (services/geminiService module).

The TypeScript source is shallowly embedded: the module-level mutable
caches become explicit state values threaded through the operations,
remote calls become parameters carrying the outcome the remote side
would produce, and thrown JavaScript errors become `Except` errors
carrying the thrown message.
-/

namespace GeminiService

/-- The three chat personality profiles (`types.ts`). -/
inductive ChatPersonality where
  | standard
  | fast
  | creative
deriving DecidableEq

/-- Per-personality generation configuration built by `getChatInstance`:
a fixed system instruction and, for the creative tier, an extended
thinking budget. -/
structure ChatConfig where
  systemInstruction : String
  thinkingBudget : Option Nat
deriving DecidableEq

/-- The fixed system instruction passed to every chat session. -/
def chatSystemInstruction : String :=
  "You are Mani Ai, a helpful and friendly AI assistant. Your responses should be informative and easy to understand."

/-- Model identity and config selected per personality by the `switch`
in `getChatInstance`. -/
def chatModelFor : ChatPersonality → String × ChatConfig
  | .fast => ("gemini-flash-lite-latest", ⟨chatSystemInstruction, none⟩)
  | .creative => ("gemini-2.5-pro", ⟨chatSystemInstruction, some 32768⟩)
  | .standard => ("gemini-2.5-flash", ⟨chatSystemInstruction, none⟩)

/-- The module-level chat cache `const chats = new Map<ChatPersonality, Chat>()`,
made explicit.  Sessions are identified by the order of their creation
(`nextId` is the id the next `ai.chats.create` call would produce), so
that "same instance" and "fresh instance" are expressible. -/
structure ChatState where
  chats : ChatPersonality → Option Nat
  nextId : Nat

/-- The initial, empty cache. -/
def ChatState.init : ChatState := ⟨fun _ => none, 0⟩

/-- Well-formedness: every cached session id was produced by an earlier
`create` call, hence is below the next fresh id. -/
def ChatState.WF (s : ChatState) : Prop :=
  ∀ p c, s.chats p = some c → c < s.nextId

/-- `clearChatHistory`: `chats.delete(personality)`. -/
def clearChatHistory (p : ChatPersonality) (s : ChatState) : ChatState :=
  { s with chats := fun q => if q = p then none else s.chats q }

/-- `getChatInstance`: return the cached session if present; otherwise
require the API key, create a session configured per personality, cache
and return it.  The thrown `Error("API_KEY environment variable not set")`
becomes the `Except.error` case. -/
def getChatInstance (apiKey : Option String) (p : ChatPersonality) (s : ChatState) :
    Except String (Nat × ChatState) :=
  match s.chats p with
  | some c => .ok (c, s)
  | none =>
    match apiKey with
    | none => .error "API_KEY environment variable not set"
    | some _ =>
      .ok (s.nextId,
        { chats := fun q => if q = p then some s.nextId else s.chats q,
          nextId := s.nextId + 1 })

/-- Outcome of one `sendMessageToAI` call: the returned or thrown value,
the cache state after the call, and how many remote send requests were
issued. -/
structure ChatTurn where
  result : Except String String
  state : ChatState
  requests : Nat

/-- `sendMessageToAI`: obtain the session, await one reply.  Any failure
(session creation or the send itself) is caught, the session for the
personality is deleted, and a fresh `Error` with the fixed service
message is thrown.  `sendResult` carries the outcome the provider would
produce for the send. -/
def sendMessageToAI (apiKey : Option String) (sendResult : Except String String)
    (message : String) (p : ChatPersonality) (s : ChatState) : ChatTurn :=
  match getChatInstance apiKey p s with
  | .error _ =>
    ⟨.error "Failed to communicate with the Mani Ai service.", clearChatHistory p s, 0⟩
  | .ok (_, s1) =>
    match sendResult with
    | .ok t => ⟨.ok t, s1, 1⟩
    | .error _ =>
      ⟨.error "Failed to communicate with the Mani Ai service.", clearChatHistory p s1, 1⟩

theorem clearChatHistory_chats (p : ChatPersonality) (s : ChatState) (q : ChatPersonality) :
    (clearChatHistory p s).chats q = if q = p then none else s.chats q := rfl

theorem getChatInstance_nextId_mono (k : Option String) (p : ChatPersonality)
    (s : ChatState) (c : Nat) (s1 : ChatState)
    (h : getChatInstance k p s = .ok (c, s1)) : s.nextId ≤ s1.nextId := by
  unfold getChatInstance at h
  cases hc : s.chats p with
  | some c0 =>
    rw [hc] at h
    simp only [Except.ok.injEq, Prod.mk.injEq] at h
    obtain ⟨-, h2⟩ := h
    subst h2
    exact le_refl _
  | none =>
    cases k with
    | none => rw [hc] at h; simp at h
    | some key =>
      rw [hc] at h
      simp only [Except.ok.injEq, Prod.mk.injEq] at h
      obtain ⟨-, h2⟩ := h
      subst h2
      exact Nat.le_succ _

/-- Claim C4: `getChatInstance(P)` called twice without an intervening
`clearChatHistory(P)` returns the same session instance and leaves the
cache unchanged on the second call; after `clearChatHistory(P)` the next
`getChatInstance(P)` returns a new (different) instance; and
`clearChatHistory(P)` is a no-op when no session exists for `P`. -/
theorem getChatInstance_cache_laws (p : ChatPersonality) (s : ChatState) (key : String)
    (hwf : s.WF) :
    (∀ k k2 c s1, getChatInstance k p s = .ok (c, s1) →
        getChatInstance k2 p s1 = .ok (c, s1)) ∧
    (∀ c c2 s2, s.chats p = some c →
        getChatInstance (some key) p (clearChatHistory p s) = .ok (c2, s2) → c2 ≠ c) ∧
    (s.chats p = none → clearChatHistory p s = s) := by
  refine ⟨?_, ?_, ?_⟩
  · intro k k2 c s1 h
    unfold getChatInstance at h ⊢
    cases hc : s.chats p with
    | some c0 =>
      simp [hc] at h
      obtain ⟨rfl, rfl⟩ := h
      simp [hc]
    | none =>
      cases k with
      | none => simp [hc] at h
      | some k0 =>
        simp [hc] at h
        obtain ⟨rfl, rfl⟩ := h
        simp
  · intro c c2 s2 hc h
    have hlt : c < s.nextId := hwf p c hc
    unfold getChatInstance at h
    simp [clearChatHistory] at h
    omega
  · intro hc
    cases s with
    | mk chats nextId =>
      simp only [clearChatHistory]
      congr 1
      funext q
      by_cases hq : q = p
      · subst hq; simp [hc.symm ▸ hc]; exact hc.symm
      · simp [hq]

/-- Witness for C4: the cache laws applied at a concrete state. -/
theorem getChatInstance_cache_laws_witness :
    clearChatHistory .standard ChatState.init = ChatState.init :=
  (getChatInstance_cache_laws .standard ChatState.init "k"
    (fun p c h => by simp [ChatState.init] at h)).2.2 rfl

/-- Claim C3: whenever `sendMessageToAI` fails, the cached session for
the personality has been removed when the error reaches the caller, and
a subsequent `getChatInstance` for that personality constructs a fresh
session (a different instance from the one cached before the call). -/
theorem sendMessageToAI_failure_evicts (k : Option String) (r : Except String String)
    (m : String) (p : ChatPersonality) (s : ChatState) (key : String)
    (hwf : s.WF) (hfail : (sendMessageToAI k r m p s).result.isOk = false) :
    (sendMessageToAI k r m p s).state.chats p = none ∧
    (∀ c c2 s3, s.chats p = some c →
        getChatInstance (some key) p (sendMessageToAI k r m p s).state = .ok (c2, s3) →
        c2 ≠ c) := by
  cases hg : getChatInstance k p s with
  | error e0 =>
    simp only [sendMessageToAI, hg]
    refine ⟨by simp [clearChatHistory], ?_⟩
    intro c c2 s3 hc hget
    have hlt : c < s.nextId := hwf p c hc
    unfold getChatInstance at hget
    simp [clearChatHistory] at hget
    omega
  | ok v =>
    obtain ⟨c1, s1⟩ := v
    have hmono : s.nextId ≤ s1.nextId := getChatInstance_nextId_mono k p s c1 s1 hg
    cases r with
    | ok t =>
      exfalso
      simp [sendMessageToAI, hg, Except.isOk, Except.toBool] at hfail
    | error e0 =>
      simp only [sendMessageToAI, hg]
      refine ⟨by simp [clearChatHistory], ?_⟩
      intro c c2 s3 hc hget
      have hlt : c < s.nextId := hwf p c hc
      unfold getChatInstance at hget
      simp [clearChatHistory] at hget
      omega

/-- Witness for C3: a provider failure on a cached session evicts it and
the next lookup creates a different instance. -/
theorem sendMessageToAI_failure_evicts_witness :
    (sendMessageToAI (some "k") (.error "boom") "hi" .standard
      ⟨fun q => if q = .standard then some 0 else none, 1⟩).state.chats .standard = none :=
  (sendMessageToAI_failure_evicts (some "k") (.error "boom") "hi" .standard
    ⟨fun q => if q = .standard then some 0 else none, 1⟩ "k"
    (fun p c h => by cases p <;> simp_all) rfl).1

/-- Claim C10: every failure of `sendMessageToAI`, whatever its cause,
surfaces as an error with the single fixed message; the original error
is not propagated. -/
theorem sendMessageToAI_failure_message (k : Option String) (r : Except String String)
    (m : String) (p : ChatPersonality) (s : ChatState) (e : String)
    (h : (sendMessageToAI k r m p s).result = .error e) :
    e = "Failed to communicate with the Mani Ai service." := by
  unfold sendMessageToAI at h
  cases hg : getChatInstance k p s with
  | error e0 => rw [hg] at h; simp at h; exact h.symm
  | ok v =>
    rw [hg] at h
    cases r with
    | ok t => simp at h
    | error e0 => simp at h; exact h.symm

/-- Witness for C10: a missing API key at session creation still surfaces
as the fixed service message. -/
theorem sendMessageToAI_failure_message_witness :
    (sendMessageToAI none (.ok "reply") "hi" .standard ChatState.init).result =
      .error "Failed to communicate with the Mani Ai service." ∧
    "Failed to communicate with the Mani Ai service." =
      "Failed to communicate with the Mani Ai service." :=
  ⟨rfl, (sendMessageToAI_failure_message none (.ok "reply") "hi" .standard ChatState.init
    _ rfl).symm⟩

/-- One status snapshot of a video-generation operation as returned by
`ai.models.generateVideos` / `ai.operations.getVideosOperation`:
the completion flag, the optional error (its message), and
`response?.generatedVideos?.[0]?.video?.uri`. -/
structure VideoOperation where
  done : Bool
  error : Option String
  uri : Option String
deriving DecidableEq

/-- The lifecycle events yielded by the `generateVideo` async generator. -/
inductive VideoEvent where
  | fetching
  | completed (url : String)
deriving DecidableEq

/-- The distinct failure exits of `generateVideo`, one per `throw` site. -/
inductive VideoError where
  | apiKeyMissing
  | submitFailure (msg : String)
  | pollFailure (msg : String)
  | generationFailed (msg : String)
  | noDownloadLink
  | fetchFailed (statusText : String)
deriving DecidableEq

/-- The message of the JavaScript `Error` thrown on each failure exit
(`submitFailure` and `pollFailure` rethrow the provider error as is). -/
def VideoError.message : VideoError → String
  | .apiKeyMissing => "API_KEY environment variable not set"
  | .submitFailure m => m
  | .pollFailure m => m
  | .generationFailed m => "Video generation failed: " ++ m
  | .noDownloadLink => "Video generation failed to produce a download link."
  | .fetchFailed st => "Failed to fetch video: " ++ st

/-- Outcome of the `fetch(downloadLink&key=...)` call: HTTP success flag,
status text, and the object URL the fetched blob would be given. -/
structure VideoFetchResponse where
  ok : Bool
  statusText : String
  blobUrl : String
deriving DecidableEq

/-- Observable outcome of one `generateVideo` run: the events yielded,
the error it terminated with (if any), and how many submission, polling
and asset-fetch requests were issued. -/
structure VideoRun where
  events : List VideoEvent
  result : Option VideoError
  submitCount : Nat
  pollCount : Nat
  fetchCount : Nat
deriving DecidableEq

/-- The `while (!operation.done)` polling loop.  `polls` is the trace of
outcomes successive `getVideosOperation` calls would produce; the result
pairs the final poll outcome with the number of polling calls issued.
`none` means the loop would keep polling beyond the supplied trace. -/
def pollLoop : VideoOperation → List (Except String VideoOperation) →
    Option (Except String VideoOperation × Nat)
  | op, polls =>
    if op.done then some (.ok op, 0)
    else
      match polls with
      | [] => none
      | .error e :: _ => some (.error e, 1)
      | .ok op2 :: rest =>
        match pollLoop op2 rest with
        | none => none
        | some (r, n) => some (r, n + 1)

/-- `generateVideo`: require the API key, submit the job, poll until
done, then fail on a job error or a missing download link, else yield
`fetching`, fetch the asset (failing on a non-success response), and
yield `completed` with the object URL of the fetched blob. -/
def generateVideo (apiKey : Option String) (submit : Except String VideoOperation)
    (polls : List (Except String VideoOperation)) (fetchResp : VideoFetchResponse) :
    Option VideoRun :=
  match apiKey with
  | none => some ⟨[], some .apiKeyMissing, 0, 0, 0⟩
  | some _ =>
    match submit with
    | .error e => some ⟨[], some (.submitFailure e), 1, 0, 0⟩
    | .ok op0 =>
      match pollLoop op0 polls with
      | none => none
      | some (.error e, n) => some ⟨[], some (.pollFailure e), 1, n, 0⟩
      | some (.ok opF, n) =>
        match opF.error with
        | some msg => some ⟨[], some (.generationFailed msg), 1, n, 0⟩
        | none =>
          match opF.uri with
          | none => some ⟨[], some .noDownloadLink, 1, n, 0⟩
          | some _ =>
            if fetchResp.ok then
              some ⟨[.fetching, .completed fetchResp.blobUrl], none, 1, n, 1⟩
            else
              some ⟨[.fetching], some (.fetchFailed fetchResp.statusText), 1, n, 1⟩

theorem pollLoop_done (op : VideoOperation) (polls : List (Except String VideoOperation))
    (h : op.done = true) : pollLoop op polls = some (.ok op, 0) := by
  rw [pollLoop.eq_def]
  simp [h]

theorem pollLoop_not_done_ok (op op2 : VideoOperation)
    (rest : List (Except String VideoOperation)) (h : op.done = false) :
    pollLoop op (.ok op2 :: rest) =
      match pollLoop op2 rest with
      | none => none
      | some (r, n) => some (r, n + 1) := by
  rw [pollLoop.eq_def]
  simp [h]

theorem pollLoop_trace (ops : List VideoOperation) (op0 finalOp : VideoOperation)
    (extra : List (Except String VideoOperation))
    (h0 : op0.done = false) (hops : ∀ op ∈ ops, op.done = false)
    (hf : finalOp.done = true) :
    pollLoop op0 (ops.map Except.ok ++ (.ok finalOp :: extra)) =
      some (.ok finalOp, ops.length + 1) := by
  induction ops generalizing op0 with
  | nil =>
    simp only [List.map_nil, List.nil_append]
    rw [pollLoop_not_done_ok _ _ _ h0, pollLoop_done _ _ hf]
    simp
  | cons op ops ih =>
    have hop : op.done = false := hops op (List.mem_cons_self _ _)
    have ih2 := ih op hop (fun o ho => hops o (List.mem_cons_of_mem _ ho))
    simp only [List.map_cons, List.cons_append]
    rw [pollLoop_not_done_ok _ _ _ h0, ih2]
    simp [Nat.add_assoc]

/-- Claim C1: when the job status reports `done=false` some number of
times and then `done=true` with no error and a valid URI, and the asset
fetch succeeds, `generateVideo` yields exactly `[fetching, completed url]`
in that order and issues no polling call after the first `done=true`
response (the poll count is exactly the position of the first
`done=true`, whatever trailing responses the trace would offer). -/
theorem generateVideo_success_sequence (key u blobUrl st : String)
    (op0 finalOp : VideoOperation) (ops : List VideoOperation)
    (extra : List (Except String VideoOperation))
    (h0 : op0.done = false) (hops : ∀ op ∈ ops, op.done = false)
    (hf : finalOp.done = true) (he : finalOp.error = none) (hu : finalOp.uri = some u) :
    generateVideo (some key) (.ok op0) (ops.map Except.ok ++ (.ok finalOp :: extra))
        ⟨true, st, blobUrl⟩ =
      some ⟨[.fetching, .completed blobUrl], none, 1, ops.length + 1, 1⟩ := by
  have hp := pollLoop_trace ops op0 finalOp extra h0 hops hf
  simp [generateVideo, hp, he, hu]

/-- Witness for C1: a job reporting `done=false` twice (initial snapshot
and one poll) and then `done=true` yields exactly the two events, with
two polling calls and none after completion despite a longer trace. -/
theorem generateVideo_success_sequence_witness :
    generateVideo (some "k") (.ok ⟨false, none, none⟩)
        ([(⟨false, none, none⟩ : VideoOperation)].map Except.ok ++
          (.ok ⟨true, none, some "https://dl"⟩ :: [.ok ⟨true, none, some "https://dl"⟩]))
        ⟨true, "OK", "blob:video-1"⟩ =
      some ⟨[.fetching, .completed "blob:video-1"], none, 1, 2, 1⟩ :=
  generateVideo_success_sequence "k" "https://dl" "blob:video-1" "OK"
    ⟨false, none, none⟩ ⟨true, none, some "https://dl"⟩
    [⟨false, none, none⟩] [.ok ⟨true, none, some "https://dl"⟩]
    rfl (by decide) rfl rfl rfl

/-- Claim C6: a completed job whose result carries an error makes
`generateVideo` fail with the generation-failure error, emitting no
event and attempting no asset fetch; a non-success asset-fetch response
after a successful job fails with the fetch-failure error; and the two
failure exits are distinguishable both by kind and by message. -/
theorem generateVideo_failure_kinds (key u st blobUrl msg : String)
    (op0 opF : VideoOperation) (polls : List (Except String VideoOperation)) (n : Nat)
    (hp : pollLoop op0 polls = some (.ok opF, n)) :
    (opF.error = some msg →
      ∀ fetchResp, generateVideo (some key) (.ok op0) polls fetchResp =
        some ⟨[], some (.generationFailed msg), 1, n, 0⟩) ∧
    (opF.error = none → opF.uri = some u →
      generateVideo (some key) (.ok op0) polls ⟨false, st, blobUrl⟩ =
        some ⟨[.fetching], some (.fetchFailed st), 1, n, 1⟩) ∧
    (∀ s2 m2, VideoError.fetchFailed s2 ≠ VideoError.generationFailed m2 ∧
      (VideoError.fetchFailed s2).message ≠ (VideoError.generationFailed m2).message) := by
  refine ⟨?_, ?_, ?_⟩
  · intro he fetchResp
    simp [generateVideo, hp, he]
  · intro he hu
    simp [generateVideo, hp, he, hu]
  · intro s2 m2
    refine ⟨by simp, ?_⟩
    intro h
    have h2 := congrArg String.data h
    simp [VideoError.message, String.data_append] at h2

/-- Witness for C6: a job that completes with an error, at a concrete
trace. -/
theorem generateVideo_failure_kinds_witness :
    generateVideo (some "k") (.ok ⟨false, none, none⟩)
        [.ok ⟨true, some "quota exceeded", none⟩] ⟨true, "OK", "blob:video-2"⟩ =
      some ⟨[], some (.generationFailed "quota exceeded"), 1, 1, 0⟩ :=
  (generateVideo_failure_kinds "k" "u" "st" "blobUrl" "quota exceeded"
    ⟨false, none, none⟩ ⟨true, some "quota exceeded", none⟩
    [.ok ⟨true, some "quota exceeded", none⟩] 1 (by rfl)).1 rfl
    ⟨true, "OK", "blob:video-2"⟩

/-- The wire part produced by `fileToGenerativePart`: base64 payload and
MIME type of the local file. -/
structure GenerativePart where
  data : String
  mimeType : String
deriving DecidableEq

/-- Model selection in `analyzeMedia`: the higher-capacity model for
video input, the standard one otherwise. -/
def analysisModelFor (fileType : String) : String :=
  if fileType.startsWith "video/" then "gemini-2.5-pro" else "gemini-2.5-flash"

/-- `analyzeMedia`: require the API key, encode the file (an encode
failure propagates before any network call), then issue one
`generateContent` request.  Returns the request count and the result. -/
def analyzeMedia (apiKey : Option String) (prompt : String) (fileType : String)
    (fileRead : Except String GenerativePart) (providerResult : Except String String) :
    Nat × Except String String :=
  match apiKey with
  | none => (0, .error "API_KEY environment variable not set")
  | some _ =>
    match fileRead with
    | .error e => (0, .error e)
    | .ok _ =>
      match providerResult with
      | .error e => (1, .error e)
      | .ok t => (1, .ok t)

/-- The request `generateImage` issues: model, prompt, and a config
asking for exactly one JPEG image at the requested aspect ratio. -/
structure ImageRequest where
  model : String
  prompt : String
  numberOfImages : Nat
  outputMimeType : String
  aspect : String
deriving DecidableEq

/-- The request payload built by `generateImage`. -/
def imageRequest (prompt : String) (aspect : String) : ImageRequest :=
  ⟨"imagen-4.0-generate-001", prompt, 1, "image/jpeg", aspect⟩

/-- How a `generateImage` call fails: a deliberately thrown `Error`
carrying a message, or an incidental JavaScript `TypeError` from
accessing a property of `undefined`. -/
inductive JsFailure where
  | thrown (msg : String)
  | typeError
deriving DecidableEq

/-- `generateImage`: require the API key, issue the request built by
`imageRequest`, then read `response.generatedImages[0].image.imageBytes`
without checking the array, so an empty result crashes with a
`TypeError` rather than a deliberate error.  Returns the request count
and the result. -/
def generateImage (apiKey : Option String) (prompt : String) (aspect : String)
    (generatedImages : List String) : Nat × Except JsFailure String :=
  match apiKey with
  | none => (0, .error (.thrown "API_KEY environment variable not set"))
  | some _ =>
    match generatedImages with
    | [] => (1, .error .typeError)
    | b :: _ => (1, .ok ("data:image/jpeg;base64," ++ b))

/-- Voice-name aliasing applied by `generateAudio` before dispatch. -/
def apiVoiceNameFor (voiceName : String) : String :=
  if voiceName = "Prabhas" then "Fenrir"
  else if voiceName = "Human" then "Zephyr"
  else voiceName

/-- Outcome of one `generateAudio` call: requests issued, the voice name
sent on the wire, and the returned or thrown value. -/
structure AudioRun where
  requests : Nat
  voiceSent : String
  result : Except String String

/-- `generateAudio`: unlike every other entry point, it performs no
API-key check — the client is constructed with whatever the environment
holds and the TTS request is issued unconditionally.  `providerResult`
carries the provider outcome, its `Option` recording whether
`candidates?.[0]?.content?.parts?.[0]?.inlineData?.data` is present. -/
def generateAudio (apiKey : Option String) (text voiceName : String)
    (providerResult : Except String (Option String)) : AudioRun :=
  match providerResult with
  | .error e => ⟨1, apiVoiceNameFor voiceName, .error e⟩
  | .ok none => ⟨1, apiVoiceNameFor voiceName, .error "Failed to generate audio data."⟩
  | .ok (some b64) => ⟨1, apiVoiceNameFor voiceName, .ok b64⟩

/-- An inbound live-API message as seen by the `onmessage` handler:
presence (with text) of `serverContent?.inputTranscription` and the
`serverContent?.turnComplete` flag. -/
structure LiveServerMessage where
  inputTranscription : Option String
  turnComplete : Bool
deriving DecidableEq

/-- The `onmessage` handler of `startTranscriptionSession`: an interim
fragment overwrites the current-utterance buffer and is forwarded with
`isFinal = false`; a turn-complete marker with a non-empty buffer
forwards the buffer with `isFinal = true` and clears it.  Returns the
new buffer and the `onTranscriptionUpdate` calls made, in order. -/
def transcriptionOnMessage (currentTranscript : String) (message : LiveServerMessage) :
    String × List (String × Bool) :=
  let step1 :=
    match message.inputTranscription with
    | some t => (t, [(t, false)])
    | none => (currentTranscript, [])
  if message.turnComplete then
    if step1.1 ≠ "" then ("", step1.2 ++ [(step1.1, true)])
    else (step1.1, step1.2)
  else step1

/-- Externally observable effects of one transcription lifecycle call:
warnings logged, connections opened, `onError` messages, `onClose`
invocations, and `session.close()` attempts. -/
structure TranscriptionEffects where
  warnings : Nat
  connectionsOpened : Nat
  errorCalls : List String
  closeCalls : Nat
  closeAttempts : Nat
deriving DecidableEq

/-- `startTranscriptionSession`, acting on the module-level
`liveSessionPromise` handle (sessions identified by a creation id).  A
second `start` while the handle is set only warns; a missing API key is
reported through `onError` without connecting; otherwise exactly one
connection is opened and becomes the handle. -/
def startTranscriptionSession (apiKey : Option String) (handle : Option Nat)
    (newId : Nat) : Option Nat × TranscriptionEffects :=
  match handle with
  | some s => (some s, ⟨1, 0, [], 0, 0⟩)
  | none =>
    match apiKey with
    | none => (none, ⟨0, 0, ["API_KEY environment variable not set"], 0, 0⟩)
    | some _ => (some newId, ⟨0, 1, [], 0, 0⟩)

/-- `stopTranscriptionSession`: a no-op without a session; otherwise it
attempts `session.close()` and clears the handle in the `finally` block
whether or not the close succeeds.  It never invokes the user callbacks
itself. -/
def stopTranscriptionSession (handle : Option Nat) (closeResult : Except String Unit) :
    Option Nat × TranscriptionEffects :=
  match handle with
  | none => (none, ⟨0, 0, [], 0, 0⟩)
  | some _ => (none, ⟨0, 0, [], 0, 1⟩)

/-- Claim C2: an event carrying only an interim fragment produces
exactly one `onTranscriptionUpdate(text, false)` call and sets the
buffer to the fragment; a subsequent event carrying only a turn-complete
marker produces exactly one `onTranscriptionUpdate(buffer, true)` call
and clears the buffer; a turn-complete marker on an empty buffer
produces no callback. -/
theorem transcriptionOnMessage_protocol (buf t : String) (ht : t ≠ "") :
    transcriptionOnMessage buf ⟨some t, false⟩ = (t, [(t, false)]) ∧
    transcriptionOnMessage (transcriptionOnMessage buf ⟨some t, false⟩).1 ⟨none, true⟩ =
      ("", [(t, true)]) ∧
    transcriptionOnMessage "" ⟨none, true⟩ = ("", []) := by
  refine ⟨rfl, ?_, rfl⟩
  simp [transcriptionOnMessage, ht]

/-- Witness for C2: a concrete interim fragment followed by a bare
turn-complete marker yields the single final callback. -/
theorem transcriptionOnMessage_protocol_witness :
    transcriptionOnMessage (transcriptionOnMessage "" ⟨some "hello", false⟩).1
        ⟨none, true⟩ = ("", [("hello", true)]) :=
  (transcriptionOnMessage_protocol "" "hello" (by decide)).2.1

/-- Claim C5: at most one transcription session exists process-wide —
`start` with a live handle is a warn-only no-op that opens no connection
and leaves the handle untouched; `stop` with no session is a safe no-op
making no callback; and `stop` with a session clears the handle even
when the close attempt itself fails. -/
theorem transcriptionSession_single (s newId : Nat) (k : Option String)
    (r : Except String Unit) :
    startTranscriptionSession k (some s) newId = (some s, ⟨1, 0, [], 0, 0⟩) ∧
    stopTranscriptionSession none r = (none, ⟨0, 0, [], 0, 0⟩) ∧
    (∀ h : Option Nat, (stopTranscriptionSession h r).1 = none) := by
  refine ⟨rfl, rfl, ?_⟩
  intro h
  cases h <;> rfl

/-- Counterexample for C7: with the key present and zero returned
images, `generateImage` crashes with an incidental `TypeError` from the
unchecked `generatedImages[0]` access — not a deliberately raised
error. -/
theorem generateImage_zero_images_cex :
    generateImage (some "k") "a cat" "1:1" [] = (1, .error .typeError) := rfl

/-- Claim C7 (amended): `generateImage` requests exactly one JPEG image
and on success returns the self-contained data URI, but when the
provider returns zero images it fails with an incidental `TypeError`
(unchecked indexing), not a deliberately raised error. -/
theorem generateImage_spec (key prompt aspect : String) (generatedImages : List String) :
    (imageRequest prompt aspect).numberOfImages = 1 ∧
    (generatedImages = [] →
      generateImage (some key) prompt aspect generatedImages = (1, .error .typeError)) ∧
    (∀ b rest, generatedImages = b :: rest →
      generateImage (some key) prompt aspect generatedImages =
        (1, .ok ("data:image/jpeg;base64," ++ b))) := by
  refine ⟨rfl, ?_, ?_⟩
  · rintro rfl; rfl
  · rintro b rest rfl; rfl

/-- Witness for C7 (amended): a single returned image becomes the
`data:` URI. -/
theorem generateImage_spec_witness :
    generateImage (some "k") "a cat" "1:1" ["QUJD"] =
      (1, .ok ("data:image/jpeg;base64," ++ "QUJD")) :=
  (generateImage_spec "k" "a cat" "1:1" ["QUJD"]).2.2 "QUJD" [] rfl

/-- Counterexample for C8: with the API credential absent, audio
synthesis does not fail with a configuration error — it issues its
remote request anyway and can even succeed. -/
theorem generateAudio_no_key_check_cex :
    (generateAudio none "hello" "Prabhas" (.ok (some "QUJD"))).requests = 1 ∧
    (generateAudio none "hello" "Prabhas" (.ok (some "QUJD"))).result = .ok "QUJD" :=
  ⟨rfl, rfl⟩

/-- Claim C8 (amended): with the API credential absent, a chat turn
(without a cached session), media analysis, image generation, video
generation and transcription start all fail before any remote request
is issued — transcription through `onError`, the chat turn with its
rewrapped fixed message — but audio synthesis performs no credential
check and issues its remote request regardless. -/
theorem missing_credential_guards (prompt fileType aspect m text voice : String)
    (p : ChatPersonality) (s : ChatState) (fr : Except String GenerativePart)
    (pr : Except String String) (r : Except String String) (imgs : List String)
    (submit : Except String VideoOperation) (polls : List (Except String VideoOperation))
    (fetchResp : VideoFetchResponse) (newId : Nat)
    (apr : Except String (Option String))
    (hs : s.chats p = none) :
    ((sendMessageToAI none r m p s).result.isOk = false ∧
      (sendMessageToAI none r m p s).requests = 0) ∧
    analyzeMedia none prompt fileType fr pr =
      (0, .error "API_KEY environment variable not set") ∧
    generateImage none prompt aspect imgs =
      (0, .error (.thrown "API_KEY environment variable not set")) ∧
    generateVideo none submit polls fetchResp = some ⟨[], some .apiKeyMissing, 0, 0, 0⟩ ∧
    startTranscriptionSession none none newId =
      (none, ⟨0, 0, ["API_KEY environment variable not set"], 0, 0⟩) ∧
    (generateAudio none text voice apr).requests = 1 := by
  refine ⟨⟨?_, ?_⟩, rfl, rfl, rfl, rfl, ?_⟩
  · simp [sendMessageToAI, getChatInstance, hs, Except.isOk, Except.toBool]
  · simp [sendMessageToAI, getChatInstance, hs]
  · cases apr with
    | error e => rfl
    | ok o => cases o <;> rfl

/-- Witness for C8 (amended): the guards applied at concrete inputs. -/
theorem missing_credential_guards_witness :
    analyzeMedia none "p" "image/png" (.ok ⟨"ZGF0YQ", "image/png"⟩) (.ok "txt") =
      (0, .error "API_KEY environment variable not set") :=
  (missing_credential_guards "p" "image/png" "1:1" "m" "t" "v" .standard ChatState.init
    (.ok ⟨"ZGF0YQ", "image/png"⟩) (.ok "txt") (.ok "reply") []
    (.ok ⟨false, none, none⟩) [] ⟨true, "OK", "b"⟩ 0 (.ok none) rfl).2.1

end GeminiService

namespace AudioUtils

/-- Modelled from the spec: the Audio Codec Utility
(`createPcmBlob` and the playback decode step of `utils/audioUtils`)
is not under `src/`.  Per the spec each sample is first clamped to
`[-1, 1]`; samples are modelled as rationals. -/
def clampSample (s : ℚ) : ℚ := max (-1) (min 1 s)

/-- Modelled from the spec: a clamped sample is scaled to the signed
16-bit integer range (nearest integer). -/
def sampleToInt16 (s : ℚ) : ℤ := round (clampSample s * 32767)

/-- Modelled from the spec: a signed 16-bit value is packed little-endian
as two bytes (two's complement). -/
def int16ToBytes (i : ℤ) : List Nat :=
  [(i % 65536).toNat % 256, (i % 65536).toNat / 256]

/-- Modelled from the spec: `encodePcm` clamps, scales and packs each
sample little-endian into the binary payload. -/
def encodePcm : List ℚ → List Nat
  | [] => []
  | s :: rest => int16ToBytes (sampleToInt16 s) ++ encodePcm rest

/-- Modelled from the spec: two little-endian bytes are read back as a
signed 16-bit value. -/
def bytesToInt16 (b0 b1 : Nat) : ℤ :=
  if b0 + 256 * b1 ≥ 32768 then (b0 + 256 * b1 : ℤ) - 65536
  else (b0 + 256 * b1 : ℤ)

/-- Modelled from the spec: a signed 16-bit value is normalized back to
a floating-point sample. -/
def int16ToSample (i : ℤ) : ℚ := (i : ℚ) / 32767

/-- Modelled from the spec: the decode step interprets the byte stream
as signed 16-bit little-endian PCM and normalizes each sample. -/
def decodePcm : List Nat → List ℚ
  | b0 :: b1 :: rest => int16ToSample (bytesToInt16 b0 b1) :: decodePcm rest
  | _ => []

theorem int16_bytes_roundtrip (i : ℤ) (h1 : -32768 ≤ i) (h2 : i < 32768) :
    bytesToInt16 ((i % 65536).toNat % 256) ((i % 65536).toNat / 256) = i := by
  unfold bytesToInt16
  split <;> omega

theorem sampleToInt16_bounds (s : ℚ) (h1 : -1 ≤ s) (h2 : s ≤ 1) :
    -32768 ≤ sampleToInt16 s ∧ sampleToInt16 s < 32768 := by
  unfold sampleToInt16
  have hc1 : -1 ≤ clampSample s := le_max_left _ _
  have hc2 : clampSample s ≤ 1 := by
    apply max_le
    · norm_num
    · exact min_le_left _ _
  have hb1 : (-32767 : ℚ) ≤ clampSample s * 32767 := by nlinarith
  have hb2 : clampSample s * 32767 ≤ 32767 := by nlinarith
  have hr := abs_sub_round (clampSample s * 32767)
  rw [abs_le] at hr
  constructor
  · have hq : (-32768 : ℚ) < (round (clampSample s * 32767) : ℤ) := by
      linarith
    exact_mod_cast le_of_lt hq
  · have hq : ((round (clampSample s * 32767) : ℤ) : ℚ) < 32768 := by
      linarith
    exact_mod_cast hq

theorem sample_roundtrip (s : ℚ) (h1 : -1 ≤ s) (h2 : s ≤ 1) :
    |int16ToSample (sampleToInt16 s) - s| ≤ 1 / 32767 := by
  have hcl : clampSample s = s := by
    unfold clampSample
    rw [min_eq_right h2, max_eq_right h1]
  unfold int16ToSample sampleToInt16
  rw [hcl]
  have h3 : |s * 32767 - (round (s * 32767) : ℤ)| ≤ 1 / 2 := abs_sub_round _
  rw [abs_sub_comm] at h3
  have he : ((round (s * 32767) : ℤ) : ℚ) / 32767 - s =
      (((round (s * 32767) : ℤ) : ℚ) - s * 32767) / 32767 := by ring
  rw [he, abs_div]
  have ha : |(32767 : ℚ)| = 32767 := by norm_num
  rw [ha]
  calc |((round (s * 32767) : ℤ) : ℚ) - s * 32767| / 32767
      ≤ (1 / 2) / 32767 := by gcongr
    _ ≤ 1 / 32767 := by norm_num

/-- Claim C9: for every sequence of samples in `[-1, 1]`, encoding to
16-bit little-endian PCM followed by the corresponding decode step
recovers each sample within one 16-bit quantization step. -/
theorem encodePcm_decodePcm_roundtrip (samples : List ℚ)
    (h : ∀ s ∈ samples, -1 ≤ s ∧ s ≤ 1) :
    List.Forall₂ (fun a b => |b - a| ≤ 1 / 32767) samples
      (decodePcm (encodePcm samples)) := by
  induction samples with
  | nil => simp [encodePcm, decodePcm]
  | cons s rest ih =>
    obtain ⟨h1, h2⟩ := h s (List.mem_cons_self _ _)
    obtain ⟨hb1, hb2⟩ := sampleToInt16_bounds s h1 h2
    have hshape : decodePcm (encodePcm (s :: rest)) =
        int16ToSample (bytesToInt16 ((sampleToInt16 s % 65536).toNat % 256)
          ((sampleToInt16 s % 65536).toNat / 256)) :: decodePcm (encodePcm rest) := rfl
    rw [hshape, int16_bytes_roundtrip _ hb1 hb2]
    exact List.Forall₂.cons (sample_roundtrip s h1 h2)
      (ih (fun x hx => h x (List.mem_cons_of_mem _ hx)))

/-- Witness for C9: the round trip at a concrete sample list. -/
theorem encodePcm_decodePcm_roundtrip_witness :
    List.Forall₂ (fun a b => |b - a| ≤ 1 / 32767) [1 / 2, -1 / 3, 1, -1]
      (decodePcm (encodePcm [1 / 2, -1 / 3, 1, -1])) :=
  encodePcm_decodePcm_roundtrip [1 / 2, -1 / 3, 1, -1] (by norm_num)

end AudioUtils
